import Mathlib

/-!
Shallow embedding of the EDR (Event Data Recorder) core of the
road-recorder repository: `edr/edr_buffer.py`, `edr/edr_sensor.py`,
`edr/edr.py` and `carlasim/utilities/separating_axis_theorem.py`.

Python floats are modelled as rationals (ℚ), Python `None`-able fields as
`Option`, and filesystem side effects as an explicit trace of events.
A Python call that raises an exception is modelled by a `Bool` success
flag returned alongside the mutated state and the trace: `false` means the
exception propagated out of the call, and the returned state is the state
of the object at the moment of the raise (Python objects keep their
mutations when an exception unwinds).
-/

namespace RoadRecorder

/-- An opaque sensor payload, as stored in the buffers.  `save_to_disk` is
duck-typed in the source (`item[1].save_to_disk(frame_path)`); we model a
payload by an identity tag and a flag saying whether its `save_to_disk`
call succeeds or raises. -/
structure Data where
  tag : Nat
  saveOk : Bool
deriving Repr, DecidableEq

/-- A filesystem side effect performed by the recorder. -/
inductive FSEvent where
  /-- `os.makedirs(path, exist_ok=True)` -/
  | mkDir (path : String)
  /-- `open(path, "w").write(content)` -/
  | writeFile (path : String) (content : String)
  /-- `item[1].save_to_disk(path)` -/
  | saveItem (path : String)
deriving Repr, DecidableEq

/-- `os.path.join` for the relative paths used by this code base
(no absolute second component, no trailing separators on the inputs). -/
def joinPath (a b : String) : String :=
  if a = "" then b else a ++ "/" ++ b

/-- Python `int()` applied to a float: truncation toward zero
(`Int.tdiv` is the truncating division). -/
def pythonInt (q : ℚ) : ℤ :=
  Int.tdiv q.num (q.den : ℤ)

/-- `collections.deque(maxlen=n).append`: append on the right, dropping
from the left whenever the length would exceed `maxlen`. -/
def dequeAppend (maxlen : ℕ) (l : List α) (x : α) : List α :=
  let grown := l ++ [x]
  grown.drop (grown.length - maxlen)

/-- State of `EDRBuffer` (edr_buffer.py).  The deque's `maxlen` is kept as
an explicit field `preevent_maxlen` since Lean lists do not carry it. -/
structure EDRBuffer where
  sensor_type : String
  sensor_id : String
  preevent_time : ℚ
  postevent_time : ℚ
  max_sample_rate : ℚ
  sample_interval : ℚ
  preevent_maxlen : ℕ
  preevent_buffer : List (ℚ × Data)
  postevent_buffer : List (ℚ × Data)
  event_timestamp : Option ℚ
  start_timestamp : Option ℚ
  end_timestamp : Option ℚ
  next_timestamp : Option ℚ
  saving : Bool
deriving Repr, DecidableEq

namespace EDRBuffer

/-- `EDRBuffer.__init__`.  `preevent_samples = int(preevent_time *
max_sample_rate)`; `sample_interval = 1.0 if max_sample_rate <= 0.0 else
1.0 / max_sample_rate`. -/
def init (sensor_type sensor_id : String)
    (preevent_time postevent_time max_sample_rate : ℚ) : EDRBuffer :=
  { sensor_type := sensor_type
    sensor_id := sensor_id
    preevent_time := preevent_time
    postevent_time := postevent_time
    max_sample_rate := max_sample_rate
    sample_interval := if max_sample_rate ≤ 0 then 1 else 1 / max_sample_rate
    preevent_maxlen := (pythonInt (preevent_time * max_sample_rate)).toNat
    preevent_buffer := []
    postevent_buffer := []
    event_timestamp := none
    start_timestamp := none
    end_timestamp := none
    next_timestamp := none
    saving := false }

/-- `EDRBuffer.clear`. -/
def clear (b : EDRBuffer) : EDRBuffer :=
  { b with
    preevent_buffer := []
    postevent_buffer := []
    event_timestamp := none
    start_timestamp := none
    end_timestamp := none
    next_timestamp := none }

/-- `self.end_timestamp is not None and timestamp > self.end_timestamp` -/
def pastEnd (o : Option ℚ) (timestamp : ℚ) : Bool :=
  match o with
  | none => false
  | some e => decide (e < timestamp)

/-- `self.next_timestamp is not None and timestamp < self.next_timestamp` -/
def tooSoon (o : Option ℚ) (timestamp : ℚ) : Bool :=
  match o with
  | none => false
  | some n => decide (timestamp < n)

/-- `EDRBuffer.on_data`. -/
def on_data (b : EDRBuffer) (timestamp : ℚ) (data : Data) : EDRBuffer :=
  if b.saving then b
  else if pastEnd b.end_timestamp timestamp then b
  else if tooSoon b.next_timestamp timestamp then b
  else
    let b' := { b with next_timestamp := some (timestamp + b.sample_interval) }
    match b.event_timestamp with
    | none =>
      { b' with preevent_buffer :=
          dequeAppend b.preevent_maxlen b.preevent_buffer (timestamp, data) }
    | some _ =>
      { b' with postevent_buffer := b.postevent_buffer ++ [(timestamp, data)] }

/-- `EDRBuffer.on_event_trigger`.  The source asserts
`self.event_timestamp is None`; the Recorder's trigger guard is responsible
for upholding it, so we model the state update itself. -/
def on_event_trigger (b : EDRBuffer) (timestamp : ℚ) : EDRBuffer :=
  { b with
    event_timestamp := some timestamp
    start_timestamp := some (timestamp - b.preevent_time)
    end_timestamp := some (timestamp + b.postevent_time) }

end EDRBuffer

/-- Nearest integer to `q`, ties to even: the rounding Python applies when
formatting a float value with a fixed number of decimals. -/
def roundHalfEven (q : ℚ) : ℤ :=
  let f := ⌊q⌋
  let r := q - f
  if r < 1 / 2 then f
  else if 1 / 2 < r then f + 1
  else if f % 2 = 0 then f else f + 1

/-- Left-pad `s` with copies of `c` up to width `w`. -/
def padLeft (c : Char) (w : ℕ) (s : String) : String :=
  String.mk (List.replicate (w - s.length) c) ++ s

/-- Digit string of a nonnegative rational rounded to `prec` decimals,
e.g. `fixedDigits 2 (314/100) = "3.14"`. -/
def fixedDigits (prec : ℕ) (q : ℚ) : String :=
  let scaled := (roundHalfEven (q * ((10 : ℚ) ^ prec))).toNat
  toString (scaled / 10 ^ prec) ++ "." ++
    padLeft '0' prec (toString (scaled % 10 ^ prec))

/-- Python `"{:W.Pf}".format(q)` with optional `+` flag (`forceSign`) and
`0` fill flag (`zeroFill`): sign, then magnitude; zero fill goes between
sign and digits, space fill goes before the sign. -/
def formatFixed (width : ℕ) (zeroFill forceSign : Bool) (prec : ℕ)
    (q : ℚ) : String :=
  let sign := if q < 0 then "-" else if forceSign then "+" else ""
  let mag := fixedDigits prec |q|
  if zeroFill then sign ++ padLeft '0' (width - sign.length) mag
  else padLeft ' ' width (sign ++ mag)

/-- The filename built by `EDRBuffer._save_data_item` for the item
`(t, data)` when the buffer's event timestamp is `event_ts`:
`sensor_id + "_"` when `sensor_id != ""`, then `"{:19.8f}".format(t)`,
`"_"`, `"{:+010.8f}".format(t - event_ts)` and the extension. -/
def itemFilename (sensor_id : String) (event_ts t : ℚ) (ext : String) :
    String :=
  (if sensor_id ≠ "" then sensor_id ++ "_" else "") ++
    formatFixed 19 false false 8 t ++ "_" ++
    formatFixed 10 true true 8 (t - event_ts) ++ ext

namespace EDRBuffer

/-- One of the two flush loops in `EDRBuffer.save_data`.  `bound` is
`start_timestamp` for the pre-event loop (`lower = true`, keeping items
with `bound ≤ t`) and `end_timestamp` for the post-event loop (keeping
`t ≤ bound`).  A `none` bound or a `none` event timestamp models the
`TypeError` Python raises when comparing against / subtracting `None`; a
payload with `saveOk = false` models `save_to_disk` raising.  Returns the
trace of item saves performed and whether the loop completed without an
exception. -/
def flushItems (lower : Bool) (bound event_ts : Option ℚ)
    (sensor_id path ext : String) :
    List (ℚ × Data) → List FSEvent × Bool
  | [] => ([], true)
  | (t, d) :: rest =>
    match bound with
    | none => ([], false)
    | some bnd =>
      if (if lower then bnd ≤ t else t ≤ bnd) then
        match event_ts with
        | none => ([], false)
        | some ev =>
          let item := FSEvent.saveItem
            (joinPath path (itemFilename sensor_id ev t ext))
          if d.saveOk then
            let (evs, ok) :=
              flushItems lower bound event_ts sensor_id path ext rest
            (item :: evs, ok)
          else ([item], false)
      else flushItems lower bound event_ts sensor_id path ext rest

/-- `EDRBuffer.save_data`.  Returns the mutated buffer, the filesystem
trace, and whether the call returned normally (`true`).  When an exception
propagates out of a flush loop, `saving` stays `true`: the source sets
`self.saving = False` only on the normal path, with no `try/finally`. -/
def save_data (b : EDRBuffer) (base_path ext : String) :
    EDRBuffer × List FSEvent × Bool :=
  let locked := { b with saving := true }
  let path := joinPath (joinPath base_path b.sensor_type) b.sensor_id
  let (preEvs, preOk) :=
    flushItems true b.start_timestamp b.event_timestamp b.sensor_id path ext
      b.preevent_buffer
  if preOk then
    let (postEvs, postOk) :=
      flushItems false b.end_timestamp b.event_timestamp b.sensor_id path ext
        b.postevent_buffer
    if postOk then
      ({ locked with saving := false },
        FSEvent.mkDir path :: (preEvs ++ postEvs), true)
    else (locked, FSEvent.mkDir path :: (preEvs ++ postEvs), false)
  else (locked, FSEvent.mkDir path :: preEvs, false)

end EDRBuffer

/-- State of `EDRSensor` (edr_sensor.py): a thin wrapper holding the file
extension and the owned `EDRBuffer` (the parent actor and the simulator
handle play no part in the recorder logic). -/
structure EDRSensor where
  ext : String
  edr_buffer : EDRBuffer
deriving Repr, DecidableEq

namespace EDRSensor

/-- `EDRSensor.clear_event`: forwards to `EDRBuffer.clear`. -/
def clear_event (s : EDRSensor) : EDRSensor :=
  { s with edr_buffer := s.edr_buffer.clear }

/-- `EDRSensor.on_event_trigger`: forwards to the buffer. -/
def on_event_trigger (s : EDRSensor) (timestamp : ℚ) : EDRSensor :=
  { s with edr_buffer := s.edr_buffer.on_event_trigger timestamp }

/-- `EDRSensor.save_data`: forwards to `EDRBuffer.save_data` with the
sensor's extension. -/
def save_data (s : EDRSensor) (path : String) :
    EDRSensor × List FSEvent × Bool :=
  let (b, evs, ok) := s.edr_buffer.save_data path s.ext
  ({ s with edr_buffer := b }, evs, ok)

end EDRSensor

/-- Gregorian civil date `(year, month, day)` from a count of days since
1970-01-01, the standard civil-from-days algorithm; all divisions are
Euclidean (`/` on `ℤ`), which floors since the divisors are positive. -/
def civilFromDays (z0 : ℤ) : ℤ × ℤ × ℤ :=
  let z := z0 + 719468
  let era := z / 146097
  let doe := z - era * 146097
  let yoe := (doe - doe / 1460 + doe / 36524 - doe / 146096) / 365
  let y := yoe + era * 400
  let doy := doe - (365 * yoe + yoe / 4 - yoe / 100)
  let mp := (5 * doy + 2) / 153
  let d := doy - (153 * mp + 2) / 5 + 1
  let m := mp + (if mp < 10 then 3 else -9)
  (if m ≤ 2 then y + 1 else y, m, d)

/-- Zero-pad an integer to width `w`. -/
def pad0 (w : ℕ) (n : ℤ) : String :=
  padLeft '0' w (toString n)

/-- Models `datetime.datetime.fromtimestamp(ts).strftime("%Y-%m-%d-%H-%M-%S")`
(taken in UTC), used by `EDR.save_data` to name the per-event folder. -/
def tsToDateTimeString (ts : ℚ) : String :=
  let total : ℤ := ⌊ts⌋
  let days := total / 86400
  let sod := total % 86400
  let ymd := civilFromDays days
  pad0 4 ymd.1 ++ "-" ++ pad0 2 ymd.2.1 ++ "-" ++ pad0 2 ymd.2.2 ++ "-" ++
    pad0 2 (sod / 3600) ++ "-" ++ pad0 2 (sod % 3600 / 60) ++ "-" ++
    pad0 2 (sod % 60)

/-- State of `EDR` (edr.py). -/
structure EDR where
  sensors : List EDRSensor
  triggered : Bool
  event_timestamp : Option ℚ
  reason : String
deriving Repr, DecidableEq

namespace EDR

/-- `EDR.__init__`. -/
def init : EDR :=
  { sensors := [], triggered := false, event_timestamp := none, reason := "" }

/-- `EDR.has_triggered`. -/
def has_triggered (e : EDR) : Bool :=
  e.triggered

/-- `EDR.add_sensor`. -/
def add_sensor (e : EDR) (s : EDRSensor) : EDR :=
  { e with sensors := e.sensors ++ [s] }

/-- `EDR.clear_event`. -/
def clear_event (e : EDR) : EDR :=
  if e.has_triggered then
    { sensors := e.sensors.map EDRSensor.clear_event
      triggered := false
      event_timestamp := none
      reason := "" }
  else e

/-- `EDR.clear`: `self.sensors.clear()` then `self.clear_event()`. -/
def clear (e : EDR) : EDR :=
  EDR.clear_event { e with sensors := [] }

/-- `EDR.on_event_trigger`.  `time.time()` is modelled by the explicit
`now` argument. -/
def on_event_trigger (e : EDR) (reason : String) (now : ℚ) : EDR :=
  if e.has_triggered then e
  else
    { e with
      triggered := true
      event_timestamp := some now
      reason := reason
      sensors := e.sensors.map (fun s => s.on_event_trigger now) }

/-- The `for sensor in self.sensors: sensor.save_data(path)` loop of
`EDR.save_data`: flushes sensors in registration order, stopping at the
first sensor whose save raises. -/
def saveSensors (path : String) :
    List EDRSensor → List EDRSensor × List FSEvent × Bool
  | [] => ([], [], true)
  | s :: rest =>
    let (s', evs, ok) := s.save_data path
    if ok then
      let (rest', evs', ok') := saveSensors path rest
      (s' :: rest', evs ++ evs', ok')
    else (s' :: rest, evs, false)

/-- `EDR.save_data`.  When `event_timestamp` is `None`,
`datetime.datetime.fromtimestamp(None)` raises a `TypeError` before any
filesystem access: modelled by the `none` branch returning the unchanged
state, an empty trace and `false`. -/
def save_data (e : EDR) (base_path : String) : EDR × List FSEvent × Bool :=
  match e.event_timestamp with
  | none => (e, [], false)
  | some ts =>
    let path := joinPath base_path (tsToDateTimeString ts)
    let header := [FSEvent.mkDir path,
                   FSEvent.writeFile (joinPath path "reason.txt") e.reason]
    let (sensors', evs, ok) := saveSensors path e.sensors
    let e' := { e with sensors := sensors' }
    if ok then (e'.clear_event, header ++ evs, true)
    else (e', header ++ evs, false)

end EDR

/-- A 2-D point or vector, `(x, y)`
(carlasim/utilities/separating_axis_theorem.py). -/
def Pt : Type := ℚ × ℚ

/-- `edge_vector(point1, point2)`. -/
def edge_vector (point1 point2 : Pt) : Pt :=
  (point2.1 - point1.1, point2.2 - point1.2)

/-- `poly_to_edges(poly)`: `edge_vector(poly[i], poly[(i+1) % len(poly)])`
for each index `i`. -/
def poly_to_edges (poly : List Pt) : List Pt :=
  (List.range poly.length).map fun i =>
    edge_vector (poly.getD i (0, 0)) (poly.getD ((i + 1) % poly.length) (0, 0))

/-- `orthogonal(vector)`. -/
def orthogonal (vector : Pt) : Pt :=
  (vector.2, -vector.1)

/-- `dot_product(vector1, vector2)`. -/
def dot_product (vector1 vector2 : Pt) : ℚ :=
  vector1.1 * vector2.1 + vector1.2 * vector2.2

/-- `project(poly, axis)`: the `(min, max)` dot-product range.  Python's
`min`/`max` raise `ValueError` on an empty sequence, modelled by `none`. -/
def project (poly : List Pt) (axis : Pt) : Option (ℚ × ℚ) :=
  match poly.map (fun point => dot_product point axis) with
  | [] => none
  | d :: ds => some (ds.foldl min d, ds.foldl max d)

/-- `overlap(projection1, projection2)`: the projections are `(min, max)`
pairs and Python takes `min`/`max` of each 2-tuple again. -/
def overlap (projection1 projection2 : ℚ × ℚ) : Bool :=
  decide (min projection1.1 projection1.2 ≤ max projection2.1 projection2.2)
    && decide (min projection2.1 projection2.2 ≤ max projection1.1 projection1.2)

/-- The axis loop of `has_collided`: returns `some false` at the first
axis with non-overlapping projections, `some true` if every axis
overlaps, `none` if a projection raised (empty polygon). -/
def satLoop (poly1 poly2 : List Pt) : List Pt → Option Bool
  | [] => some true
  | axis :: rest =>
    match project poly1 axis, project poly2 axis with
    | some pr1, some pr2 =>
      if overlap pr1 pr2 then satLoop poly1 poly2 rest else some false
    | _, _ => none

/-- `has_collided(poly1, poly2)`. -/
def has_collided (poly1 poly2 : List Pt) : Option Bool :=
  satLoop poly1 poly2
    ((poly_to_edges poly1 ++ poly_to_edges poly2).map orthogonal)

/-- Feeding a list of `(timestamp, data)` samples into a buffer with
successive `on_data` calls. -/
def feed (b : EDRBuffer) (items : List (ℚ × Data)) : EDRBuffer :=
  items.foldl (fun s it => s.on_data it.1 it.2) b

/-! ## General lemmas -/

/-- `pythonInt` agrees with the floor on nonnegative rationals. -/
theorem pythonInt_eq_floor (q : ℚ) (h : 0 ≤ q) : pythonInt q = ⌊q⌋ := by
  rw [Rat.floor_def]
  exact Int.tdiv_eq_ediv (Rat.num_nonneg.mpr h) (Int.ofNat_nonneg q.den)

/-- A deque append never exceeds the capacity. -/
theorem dequeAppend_length (maxlen : ℕ) (l : List α) (x : α) :
    (dequeAppend maxlen l x).length = min (l.length + 1) maxlen := by
  simp [dequeAppend]
  omega

/-! ## C1 -/

/-- C1: `EDR.on_event_trigger(reason)` is a no-op when already triggered
(state, including every sensor, is unchanged); when not triggered it sets
`triggered`, records the event timestamp and the reason, and calls
`on_event_trigger` on every registered sensor. -/
theorem edr_trigger_spec (e : EDR) (reason : String) (now : ℚ) :
    (e.triggered = true → e.on_event_trigger reason now = e) ∧
    (e.triggered = false →
      (e.on_event_trigger reason now).triggered = true ∧
      (e.on_event_trigger reason now).event_timestamp = some now ∧
      (e.on_event_trigger reason now).reason = reason ∧
      (e.on_event_trigger reason now).sensors
        = e.sensors.map (fun s => s.on_event_trigger now)) := by
  constructor
  · intro h
    simp [EDR.on_event_trigger, EDR.has_triggered, h]
  · intro h
    simp [EDR.on_event_trigger, EDR.has_triggered, h]

/-- Witness for C1 at a concrete recorder: a second trigger before any
clear is a no-op, and the first trigger records the timestamp. -/
theorem edr_trigger_spec_witness :
    ((EDR.init.on_event_trigger "a" 1).on_event_trigger "b" 2
        = EDR.init.on_event_trigger "a" 1) ∧
    (EDR.init.on_event_trigger "a" 1).event_timestamp = some 1 := by
  refine ⟨(edr_trigger_spec (EDR.init.on_event_trigger "a" 1) "b" 2).1 ?_,
    ((edr_trigger_spec EDR.init "a" 1).2 ?_).2.1⟩
  · simp [EDR.init, EDR.on_event_trigger, EDR.has_triggered]
  · simp [EDR.init]

/-! ## C9 -/

/-- C9: calling `EDR.save_data` while not triggered
(`event_timestamp is None`) raises before any filesystem access: the
state is unchanged, the effect trace is empty, and the call does not
return normally. -/
theorem edr_save_data_untriggered (e : EDR) (base_path : String)
    (h : e.event_timestamp = none) :
    e.save_data base_path = (e, [], false) := by
  simp [EDR.save_data, h]

/-- Witness for C9 on the freshly constructed recorder. -/
theorem edr_save_data_untriggered_witness :
    EDR.init.save_data "out" = (EDR.init, [], false) :=
  edr_save_data_untriggered EDR.init "out" rfl

/-! ## C3 -/

/-- C3 counterexample: a buffer holding one pre-event item whose payload's
`save_to_disk` raises is left with `saving = true` after `save_data` (the
source clears the flag only on the normal path — no `try/finally`), and
the call did not return normally. -/
theorem edr_buffer_save_stuck_counterexample :
    (((((EDRBuffer.init "t" "i" 2 1 1).on_data 0 ⟨7, false⟩).on_event_trigger
        1).save_data "base" ".x").1.saving = true) ∧
    (((((EDRBuffer.init "t" "i" 2 1 1).on_data 0 ⟨7, false⟩).on_event_trigger
        1).save_data "base" ".x").2.2 = false) := by
  constructor <;>
    norm_num [EDRBuffer.init, EDRBuffer.on_data, EDRBuffer.on_event_trigger,
      EDRBuffer.save_data, EDRBuffer.flushItems, EDRBuffer.pastEnd,
      EDRBuffer.tooSoon, dequeAppend, pythonInt]

/-- C3 amended: after `EDRBuffer.save_data`, the `saving` flag is false
exactly when the call returned normally; when a flush raises, the buffer
stays locked. -/
theorem edr_buffer_save_saving_iff_failed (b : EDRBuffer)
    (base_path ext : String) :
    (b.save_data base_path ext).1.saving = !(b.save_data base_path ext).2.2 := by
  simp only [EDRBuffer.save_data]
  rcases h1 : EDRBuffer.flushItems true b.start_timestamp b.event_timestamp
      b.sensor_id (joinPath (joinPath base_path b.sensor_type) b.sensor_id)
      ext b.preevent_buffer with ⟨preEvs, preOk⟩
  rcases h2 : EDRBuffer.flushItems false b.end_timestamp b.event_timestamp
      b.sensor_id (joinPath (joinPath base_path b.sensor_type) b.sensor_id)
      ext b.postevent_buffer with ⟨postEvs, postOk⟩
  cases preOk <;> cases postOk <;> simp [h1, h2]

/-! ## C5 -/

/-- C5 counterexample: with `max_sample_rate = 0` the sample interval is
`1.0`, not `0`, and an `on_data` call half a second after an accepted one
is rejected by the rate-limit check (the state is unchanged), so the
buffer is not unthrottled. -/
theorem sample_interval_counterexample :
    ((EDRBuffer.init "t" "i" 1 1 0).sample_interval ≠ 0) ∧
    (((EDRBuffer.init "t" "i" 1 1 0).on_data 0 ⟨1, true⟩).on_data (1 / 2)
        ⟨2, true⟩
      = (EDRBuffer.init "t" "i" 1 1 0).on_data 0 ⟨1, true⟩) := by
  constructor
  · norm_num [EDRBuffer.init]
  · norm_num [EDRBuffer.init, EDRBuffer.on_data, EDRBuffer.pastEnd,
      EDRBuffer.tooSoon, dequeAppend, pythonInt]

/-- C5 amended: `sample_interval = 1/r` for `r > 0` but `1.0` (not `0`)
for `r ≤ 0`, so a nonpositive rate throttles the buffer to one sample per
second: half a second after an accepted sample, a call is rejected. -/
theorem sample_interval_spec (ty id : String) (p post r : ℚ) :
    ((EDRBuffer.init ty id p post r).sample_interval
        = if r ≤ 0 then 1 else 1 / r) ∧
    (((EDRBuffer.init "t" "i" 1 1 0).on_data 0 ⟨1, true⟩).on_data (1 / 2)
        ⟨2, true⟩
      = (EDRBuffer.init "t" "i" 1 1 0).on_data 0 ⟨1, true⟩) := by
  refine ⟨rfl, ?_⟩
  norm_num [EDRBuffer.init, EDRBuffer.on_data, EDRBuffer.pastEnd,
    EDRBuffer.tooSoon, dequeAppend, pythonInt]

/-! ## C4 -/

/-- C4 counterexample: for `preevent_time = 1/2` and `max_sample_rate = 5`
the ring capacity is `int(2.5) = 2`, not `ceil(2.5) = 3`. -/
theorem preevent_capacity_counterexample :
    ((EDRBuffer.init "t" "i" (1 / 2) 0 5).preevent_maxlen : ℤ)
      ≠ ⌈(1 / 2 : ℚ) * 5⌉ := by
  have hceil : ⌈(1 / 2 : ℚ) * 5⌉ = 3 := by
    rw [Int.ceil_eq_iff]
    norm_num
  rw [hceil]
  have htd : Int.tdiv 5 2 = 2 := by decide
  norm_num [EDRBuffer.init, pythonInt, htd]

/-- C4 amended: for `p ≥ 0` and `r > 0` the ring capacity is
`int(p * r) = ⌊p * r⌋` (truncation, not ceiling), and appending to a full
nonempty ring evicts the oldest element. -/
theorem preevent_capacity_spec (ty id : String) (p post r : ℚ)
    (hp : 0 ≤ p) (hr : 0 < r) :
    (((EDRBuffer.init ty id p post r).preevent_maxlen : ℤ) = ⌊p * r⌋) ∧
    (∀ (l : List (ℚ × Data)) (x : ℚ × Data),
      l.length = (EDRBuffer.init ty id p post r).preevent_maxlen → l ≠ [] →
      dequeAppend (EDRBuffer.init ty id p post r).preevent_maxlen l x
        = l.tail ++ [x]) := by
  constructor
  · have hq : (0 : ℚ) ≤ p * r := mul_nonneg hp hr.le
    simp only [EDRBuffer.init, pythonInt_eq_floor (p * r) hq]
    exact Int.toNat_of_nonneg (Int.floor_nonneg.mpr hq)
  · intro l x hlen hne
    cases l with
    | nil => exact absurd rfl hne
    | cons a as =>
      simp only [dequeAppend, List.cons_append, List.length_cons,
        List.length_append, List.length_cons, List.tail_cons]
      rw [← hlen]
      simp only [List.length_cons]
      have : as.length + 1 + 1 - (as.length + 1) = 1 := by omega
      simp [this]

/-- Witness for C4 (amended) at `p = 1/5`, `r = 5`: capacity `⌊1⌋ = 1`,
and appending to the full one-element ring drops that element. -/
theorem preevent_capacity_spec_witness :
    (((EDRBuffer.init "t" "i" (1 / 5) 0 5).preevent_maxlen : ℤ)
        = ⌊(1 / 5 : ℚ) * 5⌋) ∧
    (dequeAppend (EDRBuffer.init "t" "i" (1 / 5) 0 5).preevent_maxlen
        [((0 : ℚ), (⟨0, true⟩ : Data))] ((1 : ℚ), (⟨1, true⟩ : Data))
      = [((0 : ℚ), (⟨0, true⟩ : Data))].tail
          ++ [((1 : ℚ), (⟨1, true⟩ : Data))]) := by
  have h := preevent_capacity_spec "t" "i" (1 / 5) 0 5 (by norm_num)
    (by norm_num)
  refine ⟨h.1, h.2 _ _ ?_ (by simp)⟩
  have htd : Int.tdiv 1 1 = 1 := by decide
  norm_num [EDRBuffer.init, pythonInt, htd]

/-! ## C2 -/

/-- C2 counterexample: a triggered buffer (`T = 0`, `postevent_time = 1`)
that accepted a sample at `t = 1/2` rejects the sample at `t = 3/5` by
rate limiting even though `3/5 ≤ T + P`: the state is unchanged and
nothing is appended to the post-event queue. -/
theorem on_data_post_window_counterexample :
    ((3 / 5 : ℚ) ≤ 0 + 1) ∧
    ((((EDRBuffer.init "t" "i" 1 1 1).on_event_trigger 0).on_data (1 / 2)
          ⟨1, true⟩).on_data (3 / 5) ⟨2, true⟩
      = ((EDRBuffer.init "t" "i" 1 1 1).on_event_trigger 0).on_data (1 / 2)
          ⟨1, true⟩) ∧
    (((((EDRBuffer.init "t" "i" 1 1 1).on_event_trigger 0).on_data (1 / 2)
          ⟨1, true⟩).on_data (3 / 5) ⟨2, true⟩).postevent_buffer
      = [((1 / 2 : ℚ), ⟨1, true⟩)]) := by
  refine ⟨by norm_num, ?_, ?_⟩ <;>
    norm_num [EDRBuffer.init, EDRBuffer.on_event_trigger, EDRBuffer.on_data,
      EDRBuffer.pastEnd, EDRBuffer.tooSoon, dequeAppend, pythonInt]

/-- C2 amended: after a trigger, a sample with `t ≤ T + P` is appended to
the post-event queue provided the buffer is not saving and the rate limit
admits it (`next_timestamp` unset or `≤ t`); a sample with `t > T + P`
leaves the buffer unchanged; and the concrete scenario (trigger at `3.0`,
`postevent_time = 1.0`, samples at `3.1 .. 4.2`) retains exactly the ten
samples `3.1 .. 4.0`. -/
theorem on_data_post_window_spec :
    (∀ (b : EDRBuffer) (t : ℚ) (d : Data) (T P : ℚ),
      b.saving = false →
      b.event_timestamp = some T →
      b.end_timestamp = some (T + P) →
      (∀ n ∈ b.next_timestamp, n ≤ t) →
      t ≤ T + P →
      (b.on_data t d).postevent_buffer = b.postevent_buffer ++ [(t, d)] ∧
      (b.on_data t d).preevent_buffer = b.preevent_buffer) ∧
    (∀ (b : EDRBuffer) (t : ℚ) (d : Data) (E : ℚ),
      b.end_timestamp = some E → E < t → b.on_data t d = b) ∧
    ((feed ((EDRBuffer.init "sensor" "id" 2 1 10).on_event_trigger 3)
        [(31 / 10, ⟨1, true⟩), (32 / 10, ⟨2, true⟩), (33 / 10, ⟨3, true⟩),
         (34 / 10, ⟨4, true⟩), (35 / 10, ⟨5, true⟩), (36 / 10, ⟨6, true⟩),
         (37 / 10, ⟨7, true⟩), (38 / 10, ⟨8, true⟩), (39 / 10, ⟨9, true⟩),
         (40 / 10, ⟨10, true⟩), (41 / 10, ⟨11, true⟩),
         (42 / 10, ⟨12, true⟩)]).postevent_buffer
      = [(31 / 10, ⟨1, true⟩), (32 / 10, ⟨2, true⟩), (33 / 10, ⟨3, true⟩),
         (34 / 10, ⟨4, true⟩), (35 / 10, ⟨5, true⟩), (36 / 10, ⟨6, true⟩),
         (37 / 10, ⟨7, true⟩), (38 / 10, ⟨8, true⟩), (39 / 10, ⟨9, true⟩),
         (40 / 10, ⟨10, true⟩)]) := by
  refine ⟨?_, ?_, ?_⟩
  · intro b t d T P hs hev hend hnext hle
    have hpast : EDRBuffer.pastEnd b.end_timestamp t = false := by
      rw [hend]
      simp [EDRBuffer.pastEnd, not_lt.mpr hle]
    have hsoon : EDRBuffer.tooSoon b.next_timestamp t = false := by
      cases hn : b.next_timestamp with
      | none => simp [EDRBuffer.tooSoon]
      | some n =>
        have := hnext n (by rw [hn]; exact Option.mem_some_iff.mpr rfl)
        simp [EDRBuffer.tooSoon, not_lt.mpr this]
    simp [EDRBuffer.on_data, hs, hpast, hsoon, hev]
  · intro b t d E hend hlt
    have hpast : EDRBuffer.pastEnd b.end_timestamp t = true := by
      rw [hend]
      simp [EDRBuffer.pastEnd, hlt]
    simp [EDRBuffer.on_data, hpast]
  · norm_num [feed, EDRBuffer.init, EDRBuffer.on_event_trigger,
      EDRBuffer.on_data, EDRBuffer.pastEnd, EDRBuffer.tooSoon, dequeAppend,
      pythonInt]

/-- Witness for C2 (amended) on the concrete triggered buffer: the sample
at `31/10 ≤ 3 + 1` is appended, and the sample at `5 > 3 + 1` leaves the
state unchanged. -/
theorem on_data_post_window_spec_witness :
    ((((EDRBuffer.init "sensor" "id" 2 1 10).on_event_trigger 3).on_data
        (31 / 10) ⟨1, true⟩).postevent_buffer
      = ((EDRBuffer.init "sensor" "id" 2 1 10).on_event_trigger
          3).postevent_buffer ++ [((31 / 10 : ℚ), ⟨1, true⟩)]) ∧
    (((EDRBuffer.init "sensor" "id" 2 1 10).on_event_trigger 3).on_data 5
        ⟨2, true⟩
      = (EDRBuffer.init "sensor" "id" 2 1 10).on_event_trigger 3) := by
  constructor
  · refine (on_data_post_window_spec.1
      ((EDRBuffer.init "sensor" "id" 2 1 10).on_event_trigger 3)
      (31 / 10) ⟨1, true⟩ 3 1 ?_ ?_ ?_ ?_ ?_).1 <;>
      ((try simp [EDRBuffer.init, EDRBuffer.on_event_trigger]);
        (try norm_num))
  · refine on_data_post_window_spec.2.1
      ((EDRBuffer.init "sensor" "id" 2 1 10).on_event_trigger 3)
      5 ⟨2, true⟩ (3 + 1) ?_ ?_ <;>
      norm_num [EDRBuffer.init, EDRBuffer.on_event_trigger]

/-! ## C7 -/

/-- An `on_data` call on an untriggered, non-saving buffer whose rate
limit admits the timestamp appends to the pre-event ring and sets
`next_timestamp`. -/
theorem on_data_accept_pre (b : EDRBuffer) (t : ℚ) (d : Data)
    (hs : b.saving = false) (he : b.event_timestamp = none)
    (hend : b.end_timestamp = none)
    (hn : ∀ n ∈ b.next_timestamp, n ≤ t) :
    b.on_data t d = { b with
      next_timestamp := some (t + b.sample_interval)
      preevent_buffer := dequeAppend b.preevent_maxlen b.preevent_buffer
        (t, d) } := by
  have hpast : EDRBuffer.pastEnd b.end_timestamp t = false := by
    rw [hend]
    rfl
  have hsoon : EDRBuffer.tooSoon b.next_timestamp t = false := by
    cases hx : b.next_timestamp with
    | none => rfl
    | some n =>
      have := hn n (by rw [hx]; exact Option.mem_some_iff.mpr rfl)
      simp [EDRBuffer.tooSoon, not_lt.mpr this]
  simp [EDRBuffer.on_data, hs, hpast, hsoon, he]

/-- Feeding an untriggered, non-saving buffer with samples whose adjacent
gaps are at least `sample_interval` folds every sample into the pre-event
ring and leaves the post-event queue untouched. -/
theorem feed_pre_general (items : List (ℚ × Data)) :
    ∀ b : EDRBuffer, b.saving = false → b.event_timestamp = none →
      b.end_timestamp = none →
      (∀ n ∈ b.next_timestamp, ∀ x ∈ items.head?, n ≤ x.1) →
      items.Chain' (fun x y => x.1 + b.sample_interval ≤ y.1) →
      (feed b items).preevent_buffer
          = items.foldl (fun acc it => dequeAppend b.preevent_maxlen acc it)
              b.preevent_buffer ∧
      (feed b items).postevent_buffer = b.postevent_buffer := by
  induction items with
  | nil => exact fun b _ _ _ _ _ => ⟨rfl, rfl⟩
  | cons hd tl ih =>
    intro b hs he hend hn hchain
    rw [List.chain'_cons'] at hchain
    have hacc := on_data_accept_pre b hd.1 hd.2 hs he hend
      (fun n hn' => hn n hn' hd (by simp))
    have hfeed : feed b (hd :: tl) = feed (b.on_data hd.1 hd.2) tl := by
      simp [feed]
    have h2 := ih { b with
        next_timestamp := some (hd.1 + b.sample_interval)
        preevent_buffer := dequeAppend b.preevent_maxlen b.preevent_buffer
          (hd.1, hd.2) } hs he hend
      (by
        intro n hn' x hx
        simp only [Option.mem_some_iff] at hn'
        subst hn'
        exact hchain.1 x hx)
      hchain.2
    rw [hfeed, hacc]
    simpa using h2

/-- Folding deque appends over a list starting from a short-enough
accumulator keeps exactly the last `cap` elements. -/
theorem foldl_dequeAppend_eq_drop (cap : ℕ) :
    ∀ (items acc : List (ℚ × Data)), acc.length ≤ cap →
      items.foldl (fun l it => dequeAppend cap l it) acc
        = (acc ++ items).drop (acc.length + items.length - cap) := by
  intro items
  induction items with
  | nil =>
    intro acc h
    simp [Nat.sub_eq_zero_of_le h]
  | cons hd tl ih =>
    intro acc h
    have hlen : (dequeAppend cap acc hd).length ≤ cap := by
      rw [dequeAppend_length]
      omega
    rw [List.foldl_cons, ih _ hlen, dequeAppend_length]
    simp only [dequeAppend, List.length_append, List.length_cons,
      List.length_nil]
    rw [← List.drop_append_of_le_length (by simp), List.drop_drop,
      List.append_assoc, List.singleton_append]
    congr 1
    omega

/-- C7: before any trigger, a sequence of `on_data` calls with strictly
increasing timestamps spaced at least `sample_interval` apart leaves the
pre-event ring holding exactly `min(callCount, capacity)` samples, namely
the most recent ones in order (oldest first), and nothing in the
post-event queue. -/
theorem preevent_ring_spec (ty id : String) (p post r : ℚ)
    (items : List (ℚ × Data))
    (hchain : items.Chain' (fun x y =>
      x.1 + (EDRBuffer.init ty id p post r).sample_interval ≤ y.1)) :
    (feed (EDRBuffer.init ty id p post r) items).preevent_buffer
        = items.drop
            (items.length - (EDRBuffer.init ty id p post r).preevent_maxlen) ∧
    (feed (EDRBuffer.init ty id p post r) items).preevent_buffer.length
        = min items.length (EDRBuffer.init ty id p post r).preevent_maxlen ∧
    (feed (EDRBuffer.init ty id p post r) items).postevent_buffer = [] := by
  have hgen := feed_pre_general items (EDRBuffer.init ty id p post r) rfl rfl
    rfl (by intro n hn; cases hn) hchain
  rw [show (EDRBuffer.init ty id p post r).preevent_buffer = [] from rfl,
    show (EDRBuffer.init ty id p post r).postevent_buffer = [] from rfl]
    at hgen
  have hfold := foldl_dequeAppend_eq_drop
    (EDRBuffer.init ty id p post r).preevent_maxlen items [] (by simp)
  simp only [List.nil_append, List.length_nil, Nat.zero_add] at hfold
  refine ⟨?_, ?_, ?_⟩
  · rw [hgen.1]
    exact hfold
  · rw [hgen.1, hfold, List.length_drop]
    omega
  · exact hgen.2

/-- Witness for C7: capacity 1 (`p = 1/5`, `r = 5`), two samples one
second apart; the ring keeps only the later one, the post queue stays
empty. -/
theorem preevent_ring_spec_witness :
    ((feed (EDRBuffer.init "t" "i" (1 / 5) 0 5)
        [(0, ⟨0, true⟩), (1, ⟨1, true⟩)]).preevent_buffer
      = [((0 : ℚ), (⟨0, true⟩ : Data)), (1, ⟨1, true⟩)].drop
          (([((0 : ℚ), (⟨0, true⟩ : Data)), (1, ⟨1, true⟩)]).length
            - (EDRBuffer.init "t" "i" (1 / 5) 0 5).preevent_maxlen)) ∧
    (feed (EDRBuffer.init "t" "i" (1 / 5) 0 5)
        [(0, ⟨0, true⟩), (1, ⟨1, true⟩)]).postevent_buffer = [] := by
  have h := preevent_ring_spec "t" "i" (1 / 5) 0 5
    [(0, ⟨0, true⟩), (1, ⟨1, true⟩)] ?_
  · exact ⟨h.1, h.2.2⟩
  · simp [List.chain'_cons', EDRBuffer.init]
    norm_num

/-! ## C6 -/

/-- Projection succeeds on a nonempty polygon. -/
theorem project_isSome (poly : List Pt) (axis : Pt) (h : poly ≠ []) :
    ∃ pr, project poly axis = some pr := by
  cases poly with
  | nil => exact absurd rfl h
  | cons a as => exact ⟨_, rfl⟩

/-- The axis loop returns `some false` exactly when some axis separates
the polygons, and `some true` exactly when every axis's projections
overlap. -/
theorem satLoop_spec (poly1 poly2 : List Pt) (h1 : poly1 ≠ [])
    (h2 : poly2 ≠ []) (axes : List Pt) :
    (satLoop poly1 poly2 axes = some false ↔
      ∃ ax ∈ axes, ∃ q1 q2, project poly1 ax = some q1 ∧
        project poly2 ax = some q2 ∧ overlap q1 q2 = false) ∧
    (satLoop poly1 poly2 axes = some true ↔
      ∀ ax ∈ axes, ∃ q1 q2, project poly1 ax = some q1 ∧
        project poly2 ax = some q2 ∧ overlap q1 q2 = true) := by
  induction axes with
  | nil => simp [satLoop]
  | cons ax rest ih =>
    obtain ⟨pr1, hpr1⟩ := project_isSome poly1 ax h1
    obtain ⟨pr2, hpr2⟩ := project_isSome poly2 ax h2
    simp only [satLoop, hpr1, hpr2]
    cases hov : overlap pr1 pr2 with
    | false =>
      simp only [Bool.false_eq_true, if_false]
      constructor
      · constructor
        · intro _
          exact ⟨ax, List.mem_cons_self ax rest, pr1, pr2, hpr1, hpr2, hov⟩
        · intro _
          trivial
      · constructor
        · intro h
          exact absurd h (by simp)
        · intro hall
          obtain ⟨q1, q2, hq1, hq2, hq⟩ := hall ax (List.mem_cons_self ax rest)
          rw [hpr1] at hq1
          rw [hpr2] at hq2
          cases hq1
          cases hq2
          rw [hov] at hq
          exact Bool.noConfusion hq
    | true =>
      have hNoSep : ¬ ∃ q1 q2, project poly1 ax = some q1 ∧
          project poly2 ax = some q2 ∧ overlap q1 q2 = false := by
        rintro ⟨q1, q2, hq1, hq2, hq⟩
        rw [hpr1] at hq1
        rw [hpr2] at hq2
        cases hq1
        cases hq2
        rw [hov] at hq
        exact Bool.noConfusion hq
      have hOv : ∃ q1 q2, project poly1 ax = some q1 ∧
          project poly2 ax = some q2 ∧ overlap q1 q2 = true :=
        ⟨pr1, pr2, hpr1, hpr2, hov⟩
      rw [if_pos rfl]
      constructor
      · rw [ih.1]
        constructor
        · intro h
          obtain ⟨a, ha, hp⟩ := h
          exact ⟨a, List.mem_cons_of_mem ax ha, hp⟩
        · rintro ⟨a, ha, hp⟩
          rcases List.mem_cons.mp ha with heq | hmem
          · subst heq
            exact absurd hp hNoSep
          · exact ⟨a, hmem, hp⟩
      · rw [ih.2]
        constructor
        · intro h a ha
          rcases List.mem_cons.mp ha with heq | hmem
          · subst heq
            exact hOv
          · exact h a hmem
        · intro h a ha
          exact h a (List.mem_cons_of_mem ax ha)

/-- C6: `has_collided` enumerates the orthogonals of the edges of both
polygons (in sequence) as candidate axes, returns `False` exactly when
some axis gives non-overlapping projection ranges, `True` exactly when
all axes' projections overlap; and on the two concrete unit squares it
returns `True` at distance 0.5 and `False` at distance 5. -/
theorem has_collided_spec (poly1 poly2 : List Pt) (h1 : poly1 ≠ [])
    (h2 : poly2 ≠ []) :
    (has_collided poly1 poly2 = some false ↔
      ∃ ax ∈ (poly_to_edges poly1 ++ poly_to_edges poly2).map orthogonal,
        ∃ q1 q2, project poly1 ax = some q1 ∧
          project poly2 ax = some q2 ∧ overlap q1 q2 = false) ∧
    (has_collided poly1 poly2 = some true ↔
      ∀ ax ∈ (poly_to_edges poly1 ++ poly_to_edges poly2).map orthogonal,
        ∃ q1 q2, project poly1 ax = some q1 ∧
          project poly2 ax = some q2 ∧ overlap q1 q2 = true) ∧
    (has_collided [(-1/2, -1/2), (1/2, -1/2), (1/2, 1/2), (-1/2, 1/2)]
        [(0, -1/2), (1, -1/2), (1, 1/2), (0, 1/2)] = some true) ∧
    (has_collided [(-1/2, -1/2), (1/2, -1/2), (1/2, 1/2), (-1/2, 1/2)]
        [(9/2, -1/2), (11/2, -1/2), (11/2, 1/2), (9/2, 1/2)]
      = some false) := by
  have h := satLoop_spec poly1 poly2 h1 h2
    ((poly_to_edges poly1 ++ poly_to_edges poly2).map orthogonal)
  refine ⟨h.1, h.2, ?_, ?_⟩ <;>
    norm_num [has_collided, satLoop, poly_to_edges, edge_vector, orthogonal,
      project, dot_product, overlap, List.range_succ, min_def, max_def]

/-- Witness for C6: the theorem applied to the two concrete distant
squares yields an explicit separating axis among the enumerated ones. -/
theorem has_collided_spec_witness :
    ∃ ax ∈ (poly_to_edges
        [((-1 : ℚ)/2, (-1 : ℚ)/2), (1/2, -1/2), (1/2, 1/2), (-1/2, 1/2)]
      ++ poly_to_edges
        [((9 : ℚ)/2, (-1 : ℚ)/2), (11/2, -1/2), (11/2, 1/2),
          (9/2, 1/2)]).map orthogonal,
      ∃ q1 q2,
        project [((-1 : ℚ)/2, (-1 : ℚ)/2), (1/2, -1/2), (1/2, 1/2),
          (-1/2, 1/2)] ax = some q1 ∧
        project [((9 : ℚ)/2, (-1 : ℚ)/2), (11/2, -1/2), (11/2, 1/2),
          (9/2, 1/2)] ax = some q2 ∧
        overlap q1 q2 = false := by
  have h := has_collided_spec
    [((-1 : ℚ)/2, (-1 : ℚ)/2), (1/2, -1/2), (1/2, 1/2), (-1/2, 1/2)]
    [((9 : ℚ)/2, (-1 : ℚ)/2), (11/2, -1/2), (11/2, 1/2), (9/2, 1/2)]
    (by simp) (by simp)
  exact h.1.mp h.2.2.2

/-! ## C8 -/

/-- When every sensor's save succeeds, the sensor loop of `EDR.save_data`
flushes each sensor in registration order and concatenates their traces. -/
theorem saveSensors_all_ok (path : String) (sensors : List EDRSensor)
    (h : ∀ s ∈ sensors, (s.save_data path).2.2 = true) :
    EDR.saveSensors path sensors
      = (sensors.map (fun s => (s.save_data path).1),
         (sensors.map (fun s => (s.save_data path).2.1)).flatten, true) := by
  induction sensors with
  | nil => rfl
  | cons s rest ih =>
    have hs := h s (List.mem_cons_self s rest)
    have hrest := ih (fun x hx => h x (List.mem_cons_of_mem s hx))
    rcases hsd : s.save_data path with ⟨s', evs, ok⟩
    rw [hsd] at hs
    simp only at hs
    subst hs
    simp [EDR.saveSensors, hsd, hrest]

/-- C8: while triggered (with every sensor's save succeeding),
`EDR.save_data(base)` emits the event-folder creation, the `reason.txt`
sidecar write, then each sensor's trace in registration order, returns
normally, and leaves the recorder reset by `clear_event`: sensors cleared
after their flush, `triggered = false`, `event_timestamp = none`, and the
reason emptied. -/
theorem edr_save_data_triggered_spec (e : EDR) (base_path : String) (T : ℚ)
    (htrig : e.triggered = true) (hts : e.event_timestamp = some T)
    (hok : ∀ s ∈ e.sensors,
      (s.save_data (joinPath base_path (tsToDateTimeString T))).2.2
        = true) :
    (e.save_data base_path).2.1
      = FSEvent.mkDir (joinPath base_path (tsToDateTimeString T)) ::
        FSEvent.writeFile
          (joinPath (joinPath base_path (tsToDateTimeString T)) "reason.txt")
          e.reason ::
        (e.sensors.map (fun s =>
          (s.save_data
            (joinPath base_path (tsToDateTimeString T))).2.1)).flatten ∧
    (e.save_data base_path).1
      = { sensors := e.sensors.map (fun s => EDRSensor.clear_event
            (s.save_data (joinPath base_path (tsToDateTimeString T))).1)
          triggered := false
          event_timestamp := none
          reason := "" } ∧
    (e.save_data base_path).2.2 = true := by
  have hss := saveSensors_all_ok (joinPath base_path (tsToDateTimeString T))
    e.sensors hok
  simp only [EDR.save_data, hts, hss, EDR.clear_event, EDR.has_triggered,
    htrig, if_true, List.map_map]
  simp [Function.comp]

/-- Witness for C8: a recorder with one sensor, triggered at `T = 0`,
saves normally. -/
theorem edr_save_data_triggered_spec_witness :
    (((EDR.init.add_sensor
        ⟨".png", EDRBuffer.init "cam" "c1" 1 1 1⟩).on_event_trigger "r"
          0).save_data "out").2.2 = true := by
  refine (edr_save_data_triggered_spec _ "out" 0 ?_ ?_ ?_).2.2
  · simp [EDR.init, EDR.add_sensor, EDR.on_event_trigger, EDR.has_triggered]
  · simp [EDR.init, EDR.add_sensor, EDR.on_event_trigger, EDR.has_triggered]
  · intro s hs
    simp only [EDR.init, EDR.add_sensor, EDR.on_event_trigger,
      EDR.has_triggered, List.nil_append, if_false, Bool.false_eq_true,
      List.map_cons, List.map_nil, List.mem_cons, List.not_mem_nil,
      or_false] at hs
    subst hs
    simp [EDRSensor.on_event_trigger, EDRSensor.save_data,
      EDRBuffer.save_data, EDRBuffer.on_event_trigger, EDRBuffer.init,
      EDRBuffer.flushItems]

/-! ## C10 -/

/-- Concrete evaluation: the 8-decimal digits of `101.5`. -/
theorem fixedDigits_ts : fixedDigits 8 ((203 : ℚ) / 2) = "101.50000000" := by
  have hR : roundHalfEven ((203 : ℚ) / 2 * 10 ^ 8) = 10150000000 := by
    norm_num [roundHalfEven]
  unfold fixedDigits
  rw [hR]
  rfl

/-- Concrete evaluation: the 8-decimal digits of `1.5`. -/
theorem fixedDigits_off : fixedDigits 8 ((3 : ℚ) / 2) = "1.50000000" := by
  have hR : roundHalfEven ((3 : ℚ) / 2 * 10 ^ 8) = 150000000 := by
    norm_num [roundHalfEven]
  unfold fixedDigits
  rw [hR]
  rfl

/-- Concrete evaluation: `"{:19.8f}".format(101.5)`. -/
theorem formatFixed_ts :
    formatFixed 19 false false 8 ((203 : ℚ) / 2) = "       101.50000000" := by
  unfold formatFixed
  rw [show |(203 : ℚ) / 2| = (203 : ℚ) / 2 from abs_of_nonneg (by norm_num),
    fixedDigits_ts]
  norm_num
  rfl

/-- Concrete evaluation: `"{:+010.8f}".format(1.5)`. -/
theorem formatFixed_off :
    formatFixed 10 true true 8 ((203 : ℚ) / 2 - 100) = "+1.50000000" := by
  rw [show (203 : ℚ) / 2 - 100 = (3 : ℚ) / 2 by norm_num]
  unfold formatFixed
  rw [show |(3 : ℚ) / 2| = (3 : ℚ) / 2 from abs_of_nonneg (by norm_num),
    fixedDigits_off]
  norm_num
  rfl

/-- C10: `_save_data_item` writes
`{sensor_id}_{timestamp:19.8f}_{offset:+010.8f}{ext}` for a non-empty
sensor id and omits both the id and the leading underscore when the id is
empty, with `offset = timestamp − event_timestamp` carrying an explicit
sign; concretely at `timestamp = 101.5`, `event_timestamp = 100`. -/
theorem save_item_filename_spec :
    (∀ (event_ts t : ℚ) (ext : String),
      itemFilename "" event_ts t ext
        = formatFixed 19 false false 8 t ++ "_" ++
          formatFixed 10 true true 8 (t - event_ts) ++ ext) ∧
    (∀ (sensor_id : String) (event_ts t : ℚ) (ext : String),
      sensor_id ≠ "" →
      itemFilename sensor_id event_ts t ext
        = sensor_id ++ "_" ++ formatFixed 19 false false 8 t ++ "_" ++
          formatFixed 10 true true 8 (t - event_ts) ++ ext) ∧
    (itemFilename "cam" 100 ((203 : ℚ) / 2) ".png"
      = "cam_       101.50000000_+1.50000000.png") ∧
    (itemFilename "" 100 ((203 : ℚ) / 2) ".png"
      = "       101.50000000_+1.50000000.png") := by
  refine ⟨?_, ?_, ?_, ?_⟩
  · intro event_ts t ext
    rw [itemFilename, if_neg (by simp)]
    rfl
  · intro sensor_id event_ts t ext h
    rw [itemFilename, if_pos h]
  · rw [itemFilename, if_pos (by simp), formatFixed_ts, formatFixed_off]
    rfl
  · rw [itemFilename, if_neg (by simp), formatFixed_ts, formatFixed_off]
    rfl

/-- Witness for C10 at a concrete non-empty sensor id. -/
theorem save_item_filename_spec_witness :
    itemFilename "cam" 100 ((203 : ℚ) / 2) ".png"
      = "cam" ++ "_" ++ formatFixed 19 false false 8 ((203 : ℚ) / 2) ++
        "_" ++ formatFixed 10 true true 8 ((203 : ℚ) / 2 - 100) ++ ".png" :=
  save_item_filename_spec.2.1 "cam" 100 ((203 : ℚ) / 2) ".png" (by simp)

end RoadRecorder
